import Mathlib

/-!
Verification of the chess web application's session state machine and
analysis assembly.

The source is a React single-page application (`App` in the unnamed source
file) plus two service classes (`LichessService`, `ChessEngine`) and
`LichessOpeningService`.  The session state machine lives in `App`'s
handlers (`makeMove`, `onDrop`, `handleUndoMove`, `handleImportPGN`,
`navigateMove`, `handleColorSelect`, `handleChatMode`, `handleNewGame`,
`handleStopPgnAnalysis`, `makeEngineMove`, the mount-time restore effect).

The rules library (`chess.js`), the network services (Lichess cloud eval,
opening explorer, Gemini) and the markdown converter are external
collaborators.  They are embedded as abstract function records
(`ChessLib`, `Env`, `EngineEnv`); positions (FENs), squares and SAN move
strings are plain strings, exactly as the source passes them around.
React's `setXxx` state setters are modelled as record updates applied in
program order; the handlers here run synchronously, which matches the
source's single-threaded, serialized dispatch (spec section 5).
Transient UI-only fields (dark mode, spinners, modal visibility, chat
input text, API-key entry UI) are omitted: no handler's data flow reads
them.
-/

/-- A chess.js piece as returned by `game.get(square)`: a type character
('p', 'n', ...) and a color character ('w' or 'b'). -/
structure Piece where
  type : Char
  color : Char
deriving DecidableEq, Repr

/-- The surface of the external rules library (chess.js) that the
application uses.  FENs and squares are strings.  `none` models a thrown
exception or a null/failed result. -/
structure ChessLib where
  /-- `new Chess().fen()` : the starting position. -/
  startFen : String
  /-- `new Chess(fen).get(square)` : piece on a square, if any. -/
  pieceAt : String → String → Option Piece
  /-- `new Chess(fen).move(\x7bfrom, to, promotion\x7d)` : `none` models an
  illegal move (a throw / null result); `some (fen2, san)` gives the
  resulting position and the SAN string of the move made. -/
  moveFromTo : String → String → String → Option Char → Option (String × String)
  /-- `new Chess(fen).move(san)` : applying a SAN move string. -/
  moveSan : String → String → Option String
  /-- `new Chess().loadPgn(text)` : `none` models a parse failure (throw);
  `some hist` is the loaded game's `history()` (its SAN move list). -/
  loadPgn : String → Option (List String)
  /-- `new Chess(fen).isGameOver()`. -/
  isGameOver : String → Bool
  /-- `new Chess(fen).turn()` : 'w' or 'b'. -/
  turn : String → Char

/-- Replaying a list of SAN moves from a position with `chess.move(san)`
(the `tempGame` loop in `handleImportPGN` and the restore effect).  A move
the library rejects leaves the position unchanged; on the lists produced
by `loadPgn` every replay step succeeds, so this case is never hit there. -/
def replayFrom (lib : ChessLib) (fen : String) (moves : List String) : String :=
  moves.foldl (fun f m => match lib.moveSan f m with | some f2 => f2 | none => f) fen

/-- `newGame.history().map((_, index) => ...)` in `handleImportPGN` (and in
the mount-time restore effect): position `index` is obtained by replaying
the first `index + 1` SAN moves from the start on a fresh game. -/
def rebuildMoveLog (lib : ChessLib) (hist : List String) : List String :=
  (List.range hist.length).map (fun index => replayFrom lib lib.startFen (hist.take (index + 1)))

/-- The player-color / orientation value ('white' | 'black' in the source). -/
inductive PColor where
  | white
  | black
deriving DecidableEq, Repr

/-- One chat transcript entry (`\x7brole, content\x7d`). -/
structure ChatMsg where
  role : String
  content : String
deriving DecidableEq, Repr

/-- The `AnalysisResult` interface of `ChessEngine`.  `evaluation` is an
IEEE double in the source, produced by `evaluatePosition`; no claim reads
it, and it is carried here as an integer supplied by the environment. -/
structure AnalysisResult where
  summary : String
  detailedAnalysis : String
  bestMove : String
  pv : List String
  evaluation : Int
  positionalThemes : List String
  tacticalThemes : List String
  lichessEval : Option String := none
  openingInfo : Option String := none
deriving DecidableEq, Repr

/-- The session state held in `App`'s `useState` hooks, together with the
two `localStorage` entries (`chessPgn`, `chessMoveIndex`) the handlers
read and write. -/
structure AppState where
  game : String
  analysis : Option AnalysisResult
  boardOrientation : PColor
  playingAgainstEngine : Bool
  moveHistory : List String
  chatMode : Bool
  chatHistory : List ChatMsg
  playerColor : PColor
  currentMoveIndex : Int
  fullMoveHistory : List String
  isPgnMode : Bool
  originalPgn : String
  storagePgn : Option String
  storageMoveIndex : Option String
deriving DecidableEq, Repr

/-- The initial state of a fresh session (the `useState` initializers);
the storage slots carry whatever a previous session persisted. -/
def initState (lib : ChessLib) : AppState where
  game := lib.startFen
  analysis := none
  boardOrientation := PColor.white
  playingAgainstEngine := false
  moveHistory := []
  chatMode := false
  chatHistory := []
  playerColor := PColor.white
  currentMoveIndex := -1
  fullMoveHistory := []
  isPgnMode := false
  originalPgn := ""
  storagePgn := none
  storageMoveIndex := none

/-- A move request as passed to `makeMove` (`\x7bfrom, to, promotion?\x7d`). -/
structure MoveReq where
  fromSq : String
  toSq : String
  promotion : Option Char
deriving DecidableEq, Repr

/-- The asynchronous collaborators `App` awaits: the rules library, the
resolved value of `engine.getBestMove(fen)`, and the resolved value of
`engine.analyzePosition(fen)` as consumed by the chat branch of
`makeMove`. -/
structure Env where
  lib : ChessLib
  best : String → Option String
  analyze : String → AnalysisResult

/-- The promotion argument `makeMove` passes to `gameCopy.move`: `'q'`
exactly when the piece on the from-square is a pawn headed for its last
rank (`move.to[1]` is the rank character), `undefined` otherwise.  The
`promotion` field of the request is not consulted anywhere. -/
def promoArg (lib : ChessLib) (fen fromSq toSq : String) : Option Char :=
  match lib.pieceAt fen fromSq with
  | some piece =>
    if piece.type = 'p' ∧
        ((piece.color = 'w' ∧ toSq.data.get? 1 = some '8') ∨
         (piece.color = 'b' ∧ toSq.data.get? 1 = some '1'))
    then some 'q' else none
  | none => none

/-- `makeEngineMove(currentGame)`: if the game is not over, await a best
move; when one arrives, apply it to a copy of the position, set `game`
and append the new FEN to `moveHistory`.  Neither `currentMoveIndex` nor
`fullMoveHistory` is updated here (the source has no such calls). -/
def makeEngineMove (env : Env) (currentGame : String) (s : AppState) : AppState :=
  if env.lib.isGameOver currentGame then s
  else
    match env.best currentGame with
    | none => s
    | some engineMove =>
      match env.lib.moveSan currentGame engineMove with
      | none => s
      | some engineFen =>
        { s with game := engineFen, moveHistory := s.moveHistory ++ [engineFen] }

/-- `if (analysis.openingInfo)` style truthiness on an optional string
field: present and non-empty. -/
def truthyStr : Option String → Bool
  | some s => !s.isEmpty
  | none => false

/-- The chat response text assembled in `makeMove` (and identically in
`handleChatSubmit`): optional opening block, optional Lichess block, then
the AI analysis text. -/
def formatChatAnalysis (a : AnalysisResult) : String :=
  (if truthyStr a.openingInfo then
    "📚 Opening Information:\n" ++ a.openingInfo.getD "" ++ "\n\n" else "") ++
  (if truthyStr a.lichessEval then
    "📊 Lichess Analysis:\n" ++ a.lichessEval.getD "" ++ "\n\n" else "") ++
  "🤖 AI Analysis:\n" ++ a.detailedAnalysis

/-- `makeMove(move)`: rejects everything in PGN mode; otherwise asks the
rules library to apply the move (auto-queen promotion argument via
`promoArg`).  On success it sets `game`, appends the new FEN to
`moveHistory`, increments `currentMoveIndex`, and replaces
`fullMoveHistory` with `gameCopy.history()` — the copy was built from a
bare FEN, so that history is exactly the one move just made.  In chat
mode it then appends the player and AI transcript entries; in
engine-opponent mode, when the game is not over and it is the non-human
side's turn, it invokes `makeEngineMove`.  Returns the state and the
boolean result of the source function. -/
def makeMove (env : Env) (move : MoveReq) (s : AppState) : AppState × Bool :=
  if s.isPgnMode then (s, false)
  else
    match env.lib.moveFromTo s.game move.fromSq move.toSq
        (promoArg env.lib s.game move.fromSq move.toSq) with
    | none => (s, false)
    | some (newFen, san) =>
      let s1 : AppState :=
        { s with game := newFen,
                 moveHistory := s.moveHistory ++ [newFen],
                 currentMoveIndex := s.currentMoveIndex + 1,
                 fullMoveHistory := [san] }
      if s1.chatMode then
        let s2 := { s1 with
          chatHistory := s1.chatHistory ++ [ChatMsg.mk "player" ("Played move: " ++ san)] }
        let a := env.analyze newFen
        ({ s2 with chatHistory := s2.chatHistory ++ [ChatMsg.mk "ai" (formatChatAnalysis a)] }, true)
      else if s1.playingAgainstEngine ∧ ¬env.lib.isGameOver newFen ∧
          ((env.lib.turn newFen = 'b' ∧ s1.playerColor = PColor.white) ∨
           (env.lib.turn newFen = 'w' ∧ s1.playerColor = PColor.black)) then
        (makeEngineMove env newFen s1, true)
      else (s1, true)

/-- `onDrop(sourceSquare, targetSquare)`: blocked in PGN mode, blocked in
engine-opponent mode when it is not the human's turn, otherwise delegates
to `makeMove` with no promotion field. -/
def onDrop (env : Env) (sourceSquare targetSquare : String) (s : AppState) :
    AppState × Bool :=
  if s.isPgnMode then (s, false)
  else if s.playingAgainstEngine ∧
      ((env.lib.turn s.game = 'w' ∧ s.playerColor = PColor.black) ∨
       (env.lib.turn s.game = 'b' ∧ s.playerColor = PColor.white)) then
    (s, false)
  else makeMove env ⟨sourceSquare, targetSquare, none⟩ s

/-- `handleUndoMove()`: no-op in PGN mode or on an empty log; otherwise
pops the last log entry (twice in engine-opponent mode — the second `pop`
on an already-empty array is a no-op, as in JavaScript), rebuilds `game`
from the new last entry (falling back to the start position when the log
is empty or the entry is the empty string, the `||` default), and
decrements the cursor by 1, or unconditionally by 2 in engine-opponent
mode.  `fullMoveHistory` is not touched. -/
def handleUndoMove (lib : ChessLib) (s : AppState) : AppState :=
  if s.isPgnMode then s
  else if s.moveHistory.length > 0 then
    let newHistory := s.moveHistory.dropLast
    let newHistory := if s.playingAgainstEngine then newHistory.dropLast else newHistory
    let lastPosition :=
      match newHistory.getLast? with
      | some p => if p.isEmpty then lib.startFen else p
      | none => lib.startFen
    { s with game := lastPosition,
             moveHistory := newHistory,
             currentMoveIndex :=
               s.currentMoveIndex - (if s.playingAgainstEngine then 2 else 1) }
  else s

/-- `handleNewGame()`: fresh game, all mode flags cleared, histories and
transcript emptied, cursor −1, persisted entries removed. -/
def handleNewGame (lib : ChessLib) (_s : AppState) : AppState where
  game := lib.startFen
  analysis := none
  boardOrientation := PColor.white
  playingAgainstEngine := false
  moveHistory := []
  chatMode := false
  chatHistory := []
  playerColor := PColor.white
  currentMoveIndex := -1
  fullMoveHistory := []
  isPgnMode := false
  originalPgn := ""
  storagePgn := none
  storageMoveIndex := none

/-- `handleStopPgnAnalysis()`: clears the replay flag, PGN text and
persisted entries, then runs `handleNewGame`. -/
def handleStopPgnAnalysis (lib : ChessLib) (s : AppState) : AppState :=
  handleNewGame lib
    { s with isPgnMode := false, originalPgn := "",
             storagePgn := none, storageMoveIndex := none }

/-- `handleColorSelect(color)`: enters engine-opponent play — sets the
color assignment and orientation, raises the engine flag, resets game,
analysis, `moveHistory`, transcript and cursor (note: `fullMoveHistory`,
`chatMode`, `isPgnMode`, `originalPgn` and the persisted entries are not
touched), and when the human plays black immediately requests an engine
move from the fresh start position. -/
def handleColorSelect (env : Env) (color : PColor) (s : AppState) : AppState :=
  let s1 : AppState :=
    { s with playerColor := color,
             boardOrientation := color,
             playingAgainstEngine := true,
             game := env.lib.startFen,
             analysis := none,
             moveHistory := [],
             chatHistory := [],
             currentMoveIndex := -1 }
  if color = PColor.black then makeEngineMove env env.lib.startFen s1 else s1

/-- `handleChatMode()`: toggles the chat flag, clears the engine flag, and
resets game, analysis, `moveHistory`, transcript and cursor
(`fullMoveHistory` and `isPgnMode` are not touched). -/
def handleChatMode (lib : ChessLib) (s : AppState) : AppState :=
  { s with chatMode := !s.chatMode,
           playingAgainstEngine := false,
           game := lib.startFen,
           analysis := none,
           moveHistory := [],
           chatHistory := [],
           currentMoveIndex := -1 }

/-- `handleImportPGN` (the `reader.onload` body, given the file's text):
on parse failure the `catch` fires an alert and changes nothing — the
returned boolean records whether the invalid-file alert was shown.  On
success: `game` becomes the loaded game's final position,
`originalPgn` the raw text, `fullMoveHistory` the parsed SAN list,
`moveHistory` the per-ply rebuilt FEN list, the cursor the last index,
the PGN-mode flag is raised (other mode flags are not touched), and both
persisted entries are written. -/
def handleImportPGN (lib : ChessLib) (pgnText : String) (s : AppState) :
    AppState × Bool :=
  match lib.loadPgn pgnText with
  | none => (s, true)
  | some hist =>
    ({ s with game := replayFrom lib lib.startFen hist,
              originalPgn := pgnText,
              fullMoveHistory := hist,
              moveHistory := rebuildMoveLog lib hist,
              currentMoveIndex := (hist.length : Int) - 1,
              isPgnMode := true,
              storagePgn := some pgnText,
              storageMoveIndex := some (toString ((hist.length : Int) - 1)) }, false)

/-- `navigateMove(index)`: in-range indices (−1 up to
`moveHistory.length - 1`) move the cursor and load the indexed position
(the start position for −1); in PGN mode the persisted cursor entry is
updated.  Out-of-range indices are ignored. -/
def navigateMove (lib : ChessLib) (index : Int) (s : AppState) : AppState :=
  if -1 ≤ index ∧ index < (s.moveHistory.length : Int) then
    let g := if index = -1 then lib.startFen
             else s.moveHistory.getD index.toNat lib.startFen
    let s1 := { s with currentMoveIndex := index, game := g }
    if s1.isPgnMode then { s1 with storageMoveIndex := some (toString index) }
    else s1
  else s

/-- Digit-prefix accumulator for `parseIntJs`: consumes leading decimal
digits, returning `none` when no digit was consumed. -/
def digitsVal : List Char → Option Nat → Option Nat
  | [], acc => acc
  | c :: cs, acc =>
    if c.isDigit then digitsVal cs (some ((acc.getD 0) * 10 + (c.toNat - 48)))
    else acc

/-- A model of JavaScript `parseInt` on the strings this application
stores (an optional sign followed by digits; `none` models `NaN`).
`parseInt`'s leading-whitespace and radix handling are not needed for
values written by `currentMoveIndex.toString()`. -/
def parseIntJs (str : String) : Option Int :=
  match str.data with
  | '-' :: rest => (digitsVal rest none).map (fun n => -(n : Int))
  | '+' :: rest => (digitsVal rest none).map (fun n => (n : Int))
  | l => (digitsVal l none).map (fun n => (n : Int))

/-- The mount-time restore effect: when a persisted PGN exists, load it
exactly as `handleImportPGN` does, except the cursor comes from the
persisted `chessMoveIndex` entry — `savedMoveIndex ? parseInt(...) : -1`,
so a missing or empty entry yields −1, and a parsed value is used without
any range check.  (A non-numeric entry would give `NaN` in the source;
the application only ever writes decimal integers, and that case is
mapped to −1 here.)  A PGN that fails to parse is discarded together with
the cursor entry, leaving the fresh session untouched. -/
def restoreFromStorage (lib : ChessLib) (s : AppState) : AppState :=
  match s.storagePgn with
  | none => s
  | some savedPgn =>
    match lib.loadPgn savedPgn with
    | none => { s with storagePgn := none, storageMoveIndex := none }
    | some hist =>
      { s with game := replayFrom lib lib.startFen hist,
               originalPgn := savedPgn,
               fullMoveHistory := hist,
               moveHistory := rebuildMoveLog lib hist,
               currentMoveIndex :=
                 (match s.storageMoveIndex with
                  | some str =>
                    if str.isEmpty then -1
                    else (parseIntJs str).getD (-1)
                  | none => -1),
               isPgnMode := true }

/-- `handleAnalyze()`: stores the analysis record for the current
position. -/
def handleAnalyze (env : Env) (s : AppState) : AppState :=
  { s with analysis := some (env.analyze s.game) }

/-- `handleFlipBoard()`. -/
def handleFlipBoard (s : AppState) : AppState :=
  { s with boardOrientation :=
      if s.boardOrientation = PColor.white then PColor.black else PColor.white }

/-- The user-triggerable operations of the session state machine (the
mount-time restore runs once before any of these and is modelled
separately by `restoreFromStorage`). -/
inductive Op where
  | newGame
  | stopPgn
  | chatToggle
  | colorSelect (color : PColor)
  | importPGN (text : String)
  | move (move : MoveReq)
  | drop (sourceSquare targetSquare : String)
  | undo
  | navigate (index : Int)
  | analyze
  | flipBoard
deriving DecidableEq, Repr

/-- One dispatch of an operation to its handler. -/
def step (env : Env) (op : Op) (s : AppState) : AppState :=
  match op with
  | Op.newGame => handleNewGame env.lib s
  | Op.stopPgn => handleStopPgnAnalysis env.lib s
  | Op.chatToggle => handleChatMode env.lib s
  | Op.colorSelect color => handleColorSelect env color s
  | Op.importPGN text => (handleImportPGN env.lib text s).1
  | Op.move move => (makeMove env move s).1
  | Op.drop a b => (onDrop env a b s).1
  | Op.undo => handleUndoMove env.lib s
  | Op.navigate index => navigateMove env.lib index s
  | Op.analyze => handleAnalyze env s
  | Op.flipBoard => handleFlipBoard s

/-- Running a sequence of operations in order. -/
def execList (env : Env) (ops : List Op) (s : AppState) : AppState :=
  ops.foldl (fun st op => step env op st) s

/-! ### The `LichessService` / `LichessOpeningService` data and formatters -/

/-- One principal variation of a Lichess cloud evaluation. -/
structure LichessPv where
  moves : String
  cp : Option Int
  mate : Option Int
deriving DecidableEq, Repr

/-- The `LichessEvaluation` interface. -/
structure LichessEvaluation where
  fen : String
  knodes : Int
  depth : Int
  pvs : List LichessPv
deriving DecidableEq, Repr

/-- `(cp / 100).toFixed(2)` for an integer centipawn score: the two-place
decimal string (the IEEE round-trip through `cp / 100` reproduces the
decimal value at this magnitude). -/
def cpFixed2 (cp : Int) : String :=
  let n := cp.natAbs
  (if cp < 0 then "-" else "") ++ toString (n / 100) ++ "." ++
    (if n % 100 < 10 then "0" else "") ++ toString (n % 100)

/-- The per-line score string of `LichessService.formatEvaluation`. -/
def pvScore (pv : LichessPv) : String :=
  match pv.cp with
  | some cp => cpFixed2 cp
  | none =>
    match pv.mate with
    | some m => "Mate in " ++ toString m.natAbs
    | none => "Unknown"

/-- `LichessService.formatEvaluation`. -/
def formatEvaluation : Option LichessEvaluation → String
  | none => "Position not found in Lichess database"
  | some evaluation =>
    evaluation.pvs.enum.foldl
      (fun result (index, pv) =>
        result ++ "\nLine " ++ toString (index + 1) ++ ":\n" ++
          "Score: " ++ pvScore pv ++ "\n" ++
          "Moves: " ++ pv.moves ++ "\n")
      ("Depth: " ++ toString evaluation.depth ++ "\n")

/-- A continuation entry of the opening explorer response. -/
structure OpeningMoveStat where
  uci : String
  san : String
  white : Nat
  black : Nat
  draws : Nat
  averageRating : Nat
deriving DecidableEq, Repr

/-- A player of a notable game. -/
structure TopGamePlayer where
  name : String
  rating : Nat
deriving DecidableEq, Repr

/-- A notable game of the opening explorer response. -/
structure TopGame where
  id : String
  white : TopGamePlayer
  black : TopGamePlayer
  winner : Option String
  year : Nat
deriving DecidableEq, Repr

/-- The named opening of the opening explorer response. -/
structure OpeningName where
  eco : String
  name : String
deriving DecidableEq, Repr

/-- The `OpeningExplorerResponse` interface. -/
structure OpeningExplorerResponse where
  white : Nat
  black : Nat
  draws : Nat
  moves : List OpeningMoveStat
  topGames : List TopGame
  opening : Option OpeningName
deriving DecidableEq, Repr

/-- `((a / total) * 100).toFixed(1)`: a decimal-rounding model of the
percentage string (ties and the rare last-bit IEEE artifact aside); the
`total = 0` cases mirror `NaN`/`Infinity` stringification. -/
def pct1 (a total : Nat) : String :=
  if total = 0 then (if a = 0 then "NaN" else "Infinity")
  else
    let q := (a * 1000 + total / 2) / total
    toString (q / 10) ++ "." ++ toString (q % 10)

/-- `LichessOpeningService.formatOpeningInfo` (its `moveHistory` argument
is unused in the source body as well). -/
def formatOpeningInfo (info : Option OpeningExplorerResponse)
    (_moveHistory : List String) : String :=
  match info with
  | none => "Opening information not available"
  | some info =>
    let result := ""
    let result :=
      match info.opening with
      | some op => result ++ "📚 Opening: " ++ op.name ++ " (ECO: " ++ op.eco ++ ")\n\n"
      | none => result
    let total := info.white + info.black + info.draws
    let result :=
      if total > 0 then
        result ++ "Statistics from master games:\n" ++
          "Total games: " ++ toString total ++ "\n" ++
          "White wins: " ++ pct1 info.white total ++ "% (" ++ toString info.white ++ " games)\n" ++
          "Black wins: " ++ pct1 info.black total ++ "% (" ++ toString info.black ++ " games)\n" ++
          "Draws: " ++ pct1 info.draws total ++ "% (" ++ toString info.draws ++ " games)\n\n"
      else result
    let result :=
      if info.moves.length > 0 then
        ((info.moves.take 3).foldl
          (fun acc move =>
            let moveTotal := move.white + move.black + move.draws
            acc ++ "• " ++ move.san ++ " (" ++ pct1 moveTotal total ++ "% - " ++
              toString moveTotal ++ " games)\n")
          (result ++ "Popular continuations:\n")) ++ "\n"
      else result
    let result :=
      if info.topGames.length > 0 then
        (info.topGames.take 2).foldl
          (fun acc game =>
            let gameResult :=
              if game.winner = some "white" then "1-0"
              else if game.winner = some "black" then "0-1"
              else "½-½"
            acc ++ "• " ++ game.white.name ++ " (" ++ toString game.white.rating ++
              ") vs " ++ game.black.name ++ " (" ++ toString game.black.rating ++
              "), " ++ toString game.year ++ " - " ++ gameResult ++ "\n")
          (result ++ "Notable games:\n")
      else result
    result

/-! ### The `ChessEngine` narrative-analysis pipeline -/

/-- The credential-dependent state of a `ChessEngine` instance: its stored
key, the `isInitialized` flag, and whether `model` is non-null. -/
structure EngineCfg where
  apiKey : String
  isInitialized : Bool
  modelLoaded : Bool
deriving DecidableEq, Repr

/-- The constructor state of `ChessEngine`: empty key, not initialized,
no model object. -/
def engineInit : EngineCfg where
  apiKey := ""
  isInitialized := false
  modelLoaded := false

/-- JavaScript `String.prototype.trim`: strip whitespace from both
ends. -/
def jsTrim (s : String) : String :=
  String.mk (((s.data.dropWhile Char.isWhitespace).reverse.dropWhile
    Char.isWhitespace).reverse)

/-- JavaScript `String.prototype.startsWith`. -/
def jsStartsWith (s p : String) : Bool :=
  p.data.isPrefixOf s.data

/-- `ChessEngine.validateApiKey`: non-blank and starting with "AIza". -/
def validateApiKey (key : String) : Bool :=
  (jsTrim key).length > 0 && jsStartsWith key "AIza"

/-- `ChessEngine.setApiKey` followed by `initializeAI` (whose constructor
calls do not throw): a valid-format key is stored and activates the
client; an invalid one leaves the instance untouched and returns false. -/
def setApiKey (cfg : EngineCfg) (key : String) : EngineCfg × Bool :=
  if validateApiKey key then
    ({ apiKey := key, isInitialized := true, modelLoaded := true }, true)
  else (cfg, false)

/-- The external calls `analyzePosition` can issue, in issue order: the
cloud-evaluation lookup, the opening-explorer lookup, and the narrative
(Gemini) generation request. -/
inductive ExtCall where
  | cloudLookup (fen : String) (multiPv : Nat)
  | openingLookup (fen : String) (moves : List String)
  | narrativeRequest
deriving DecidableEq, Repr

/-- The asynchronous collaborators of `ChessEngine`, as resolved values:
the two Lichess endpoints (already reduced to their parsed-or-null
results), the Gemini text (`none` models a thrown error, `some ""` an
empty response), the markdown converter, and the chess.js reads used by
`getGamePhase` / `findBestMoves` (`boardNonKingPawnCount` counts the
board's non-king, non-pawn pieces). -/
structure EngineEnv where
  lichessGet : String → Nat → Option LichessEvaluation
  openingGet : String → List String → Option OpeningExplorerResponse
  gemini : String → Option String
  markdownToTxt : String → String
  boardNonKingPawnCount : String → Nat
  legalSans : String → List String
  gameOver : String → Bool
  evalPosition : String → Int

/-- `ChessEngine.getGamePhase` on a game constructed from a bare FEN: its
`history()` is empty, so `moveCount` is 0 and the phase is "Endgame" with
fewer than 6 non-king/non-pawn pieces and "Opening" otherwise
(`moveCount < 15` always holds). -/
def getGamePhase (env : EngineEnv) (fen : String) : String :=
  let moveCount := 0
  let pieces := env.boardNonKingPawnCount fen
  if pieces < 6 then "Endgame"
  else if moveCount < 15 then "Opening"
  else "Middlegame"

/-- `ChessEngine.fallbackAnalysis` (its `chess` argument is unused). -/
def fallbackAnalysis (_chess : String) : AnalysisResult where
  summary := "API Key Required"
  detailedAnalysis := "Please provide a valid Gemini API key to enable position analysis."
  bestMove := ""
  pv := []
  evaluation := 0
  positionalThemes := []
  tacticalThemes := []

/-- `ChessEngine.findBestMoves`: no moves when the game is over or the
library returns none; otherwise the first five SAN strings (after the
`filter(Boolean)` that drops empties). -/
def findBestMoves (env : EngineEnv) (fen : String) : List String :=
  if env.gameOver fen then []
  else
    let legalMoves := env.legalSans fen
    if legalMoves.isEmpty then []
    else ((legalMoves).filter (fun san => !san.isEmpty)).take 5

/-- The grandmaster prompt assembled by `analyzePosition`.  The game is
reconstructed from a bare FEN, so its move history is empty: the
recent-moves block never renders and the last-move slot reads "no moves
yet". -/
def buildPrompt (env : EngineEnv) (fen : String)
    (lichessEval : Option LichessEvaluation) (lichessAnalysis : String)
    (openingInfo : Option OpeningExplorerResponse) : String :=
  let phase := getGamePhase env fen
  let prompt := "As a chess grandmaster, analyze this " ++ phase.toLower ++
    " position:\n\n" ++ "Current Position (FEN): " ++ fen ++ "\n\n"
  let prompt :=
    if lichessEval.isSome then
      prompt ++ "\nLichess evaluation:\n" ++ lichessAnalysis ++ "\n"
    else prompt
  let prompt :=
    match openingInfo with
    | some info =>
      match info.opening with
      | some op => prompt ++ "\nOpening: " ++ op.name ++ " (ECO: " ++ op.eco ++ ")\n"
      | none => prompt
    | none => prompt
  prompt ++ "\nProvide a detailed analysis including:\n" ++
    "      1. Evaluation of the last move (no moves yet)\n" ++
    "      2. Current position assessment\n" ++
    "      3. Key strategic themes and plans for this " ++ phase.toLower ++ "\n" ++
    "      4. Tactical opportunities\n" ++
    "      5. Best continuation for both sides\n\n" ++
    "      Format your response with clear sections and bullet points.\n" ++
    "      Keep the analysis practical and actionable."

/-- `ChessEngine.analyzePosition`, instrumented with the list of external
calls it issues.  An uninitialized client, a missing model object or an
invalid-format key short-circuits to `fallbackAnalysis` before any
lookup.  Otherwise both Lichess lookups run, the prompt is sent to
Gemini, and a thrown or empty Gemini response falls back (discarding the
lookup results); a successful response yields the full record. -/
def analyzePosition (cfg : EngineCfg) (env : EngineEnv) (fen : String) :
    AnalysisResult × List ExtCall :=
  if !cfg.isInitialized || !cfg.modelLoaded || !validateApiKey cfg.apiKey then
    (fallbackAnalysis fen, [])
  else
    let phase := getGamePhase env fen
    let lichessEval := env.lichessGet fen 3
    let lichessAnalysis := formatEvaluation lichessEval
    let uciMoves : List String := []
    let openingInfo := env.openingGet fen uciMoves
    let formattedOpeningInfo := formatOpeningInfo openingInfo []
    let prompt := buildPrompt env fen lichessEval lichessAnalysis openingInfo
    let calls := [ExtCall.cloudLookup fen 3, ExtCall.openingLookup fen uciMoves,
                  ExtCall.narrativeRequest]
    match env.gemini prompt with
    | none => (fallbackAnalysis fen, calls)
    | some markdownAnalysis =>
      if markdownAnalysis.isEmpty then (fallbackAnalysis fen, calls)
      else
        let bestMoves := findBestMoves env fen
        ({ summary := "Position analyzed by Gemini AI (" ++ phase ++ ")",
           detailedAnalysis := env.markdownToTxt markdownAnalysis,
           bestMove := bestMoves.headD "",
           pv := bestMoves,
           evaluation := env.evalPosition fen,
           positionalThemes := [],
           tacticalThemes := [],
           lichessEval := some lichessAnalysis,
           openingInfo := some formattedOpeningInfo }, calls)

/-! ### Concrete instances used to evaluate the model on explicit inputs

A small deterministic rules library over symbolic FEN strings: from the
start position the move e2–e4 is legal (giving "fenA"), the reply ...e5
gives "fenB"; "promofen" has a white pawn on a7 one step from promotion;
two fixed PGN texts parse and everything else is rejected. -/

/-- A miniature deterministic stand-in for the rules library. -/
def toyLib : ChessLib where
  startFen := "startpos"
  pieceAt := fun fen sq =>
    if fen = "startpos" && sq = "e2" then some (Piece.mk 'p' 'w')
    else if fen = "promofen" && sq = "a7" then some (Piece.mk 'p' 'w')
    else none
  moveFromTo := fun fen a b _promo =>
    if fen = "startpos" && a = "e2" && b = "e4" then some ("fenA", "e4")
    else if fen = "promofen" && a = "a7" && b = "a8" then some ("fenQ", "a8=Q")
    else none
  moveSan := fun fen san =>
    if fen = "startpos" && san = "e4" then some "fenA"
    else if fen = "fenA" && san = "e5" then some "fenB"
    else none
  loadPgn := fun text =>
    if text = "1. e4 e5" then some ["e4", "e5"]
    else if text = "1. e4" then some ["e4"]
    else none
  isGameOver := fun _ => false
  turn := fun fen => if fen = "fenA" then 'b' else 'w'

/-- A concrete environment: the engine oracle answers ...e5 on "fenA",
and analysis requests resolve to the static fallback record. -/
def toyEnv : Env where
  lib := toyLib
  best := fun fen => if fen = "fenA" then some "e5" else none
  analyze := fun _ => fallbackAnalysis "startpos"

/-- A state sitting in PGN-replay mode. -/
def pgnToyState : AppState :=
  { initState toyLib with isPgnMode := true }

/-- A live state whose position has the promotion-ready pawn. -/
def promoToyState : AppState :=
  { initState toyLib with game := "promofen" }

/-- A fresh session whose storage still holds a one-ply game together
with a stale, out-of-range cursor entry. -/
def staleStorageState : AppState :=
  { initState toyLib with storagePgn := some "1. e4", storageMoveIndex := some "5" }

/-- A concrete engine-service environment in which the cloud evaluation
for "fenA" exists, so evaluation data would have been obtainable. -/
def toyEngineEnv : EngineEnv where
  lichessGet := fun fen _ =>
    if fen = "fenA" then
      some { fen := "fenA", knodes := 1000, depth := 30,
             pvs := [{ moves := "e7e5 g1f3", cp := some 20, mate := none }] }
    else none
  openingGet := fun _ _ => none
  gemini := fun _ => some "A balanced middlegame."
  markdownToTxt := fun text => text
  boardNonKingPawnCount := fun _ => 14
  legalSans := fun _ => ["e5", "Nf6"]
  gameOver := fun _ => false
  evalPosition := fun _ => 0

/-! ### Claim theorems -/

/-- Claim C5: in PGN-replay mode, `makeMove` (and the `onDrop` entry
point) returns false and leaves the whole session state — position, move
log, SAN history, cursor, chat transcript, persisted entries — exactly
unchanged. -/
theorem submitMove_pgnReplay_noop (env : Env) (move : MoveReq)
    (sourceSquare targetSquare : String) (s : AppState)
    (h : s.isPgnMode = true) :
    makeMove env move s = (s, false) ∧
    onDrop env sourceSquare targetSquare s = (s, false) := by
  unfold makeMove onDrop
  simp [h]

/-- Claim C5 witness: evaluated in a concrete PGN-mode state. -/
theorem submitMove_pgnReplay_noop_witness :
    pgnToyState.isPgnMode = true ∧
    (makeMove toyEnv (MoveReq.mk "e2" "e4" none) pgnToyState = (pgnToyState, false) ∧
     onDrop toyEnv "e2" "e4" pgnToyState = (pgnToyState, false)) :=
  ⟨rfl, submitMove_pgnReplay_noop toyEnv (MoveReq.mk "e2" "e4" none) "e2" "e4"
    pgnToyState rfl⟩

/-- Claim C7: when the PGN text fails to parse, `handleImportPGN` mutates
no session state (the returned state is the input state, so every
component — game, move log, SAN history, cursor, mode, original PGN,
persisted storage — keeps its prior value), and the user-visible
invalid-file alert is surfaced (the returned flag). -/
theorem importReplay_parseFailure_noop (lib : ChessLib) (pgnText : String)
    (s : AppState) (h : lib.loadPgn pgnText = none) :
    handleImportPGN lib pgnText s = (s, true) := by
  unfold handleImportPGN
  rw [h]

/-- Claim C7 witness: a concrete unparsable input. -/
theorem importReplay_parseFailure_noop_witness :
    toyLib.loadPgn "garbage" = none ∧
    handleImportPGN toyLib "garbage" (initState toyLib) = (initState toyLib, true) :=
  ⟨by decide, importReplay_parseFailure_noop toyLib "garbage" (initState toyLib)
    (by decide)⟩

/-- Claim C10: in engine-opponent mode, `handleUndoMove` on a one-entry
move log still pops twice (the second pop of an empty array is a no-op),
emptying the log, resets the position to the start FEN without error, and
decrements the cursor by exactly 2 — and in this mode the decrement is 2
for every non-empty log, never 1. -/
theorem undo_engineMode_singleEntry (lib : ChessLib) (s : AppState) (p : String)
    (hp : s.isPgnMode = false) (he : s.playingAgainstEngine = true)
    (hm : s.moveHistory = [p]) :
    (handleUndoMove lib s).moveHistory = [] ∧
    (handleUndoMove lib s).game = lib.startFen ∧
    (handleUndoMove lib s).currentMoveIndex = s.currentMoveIndex - 2 ∧
    (∀ t : AppState, t.isPgnMode = false → t.playingAgainstEngine = true →
      t.moveHistory ≠ [] →
      (handleUndoMove lib t).currentMoveIndex = t.currentMoveIndex - 2) := by
  refine ⟨?_, ?_, ?_, ?_⟩
  · unfold handleUndoMove; simp [hp, he, hm]
  · unfold handleUndoMove; simp [hp, he, hm]
  · unfold handleUndoMove; simp [hp, he, hm]
  · intro t htp hte htm
    unfold handleUndoMove
    simp [htp, hte, List.length_pos.mpr htm]

/-- Claim C10 witness: a concrete engine-mode state holding exactly one
logged position. -/
theorem undo_engineMode_singleEntry_witness :
    (let s : AppState :=
      { initState toyLib with playingAgainstEngine := true,
                              moveHistory := ["fenA"], currentMoveIndex := 0 }
     s.isPgnMode = false ∧ s.playingAgainstEngine = true ∧ s.moveHistory = ["fenA"] ∧
     ((handleUndoMove toyLib s).moveHistory = [] ∧
      (handleUndoMove toyLib s).game = toyLib.startFen ∧
      (handleUndoMove toyLib s).currentMoveIndex = s.currentMoveIndex - 2 ∧
      (∀ t : AppState, t.isPgnMode = false → t.playingAgainstEngine = true →
        t.moveHistory ≠ [] →
        (handleUndoMove toyLib t).currentMoveIndex = t.currentMoveIndex - 2))) :=
  ⟨rfl, rfl, rfl,
    undo_engineMode_singleEntry toyLib
      { initState toyLib with playingAgainstEngine := true,
                              moveHistory := ["fenA"], currentMoveIndex := 0 }
      "fenA" rfl rfl rfl⟩

/-- Claim C6: a successful import of a PGN with n plies rebuilds the move
log so that entry i is the position reached by replaying the first i+1
parsed moves from the start, sets the SAN history to the parsed move
list, the cursor to n−1, raises the PGN-replay flag, retains the original
text, and writes both persisted entries. -/
theorem importReplay_success_spec (lib : ChessLib) (pgnText : String)
    (hist : List String) (s : AppState)
    (h : lib.loadPgn pgnText = some hist) :
    (handleImportPGN lib pgnText s).2 = false ∧
    (handleImportPGN lib pgnText s).1.moveHistory.length = hist.length ∧
    (∀ i, i < hist.length →
      (handleImportPGN lib pgnText s).1.moveHistory.get? i =
        some (replayFrom lib lib.startFen (hist.take (i + 1)))) ∧
    (handleImportPGN lib pgnText s).1.fullMoveHistory = hist ∧
    (handleImportPGN lib pgnText s).1.currentMoveIndex = (hist.length : Int) - 1 ∧
    (handleImportPGN lib pgnText s).1.isPgnMode = true ∧
    (handleImportPGN lib pgnText s).1.originalPgn = pgnText ∧
    (handleImportPGN lib pgnText s).1.storagePgn = some pgnText ∧
    (handleImportPGN lib pgnText s).1.storageMoveIndex =
      some (toString ((hist.length : Int) - 1)) := by
  unfold handleImportPGN
  rw [h]
  refine ⟨rfl, by simp [rebuildMoveLog], ?_, rfl, rfl, rfl, rfl, rfl, rfl⟩
  intro i hi
  simp [rebuildMoveLog, List.get?_eq_getElem?, List.getElem?_map, List.getElem?_range, hi]

/-- Claim C6 witness: importing the concrete two-ply game "1. e4 e5". -/
theorem importReplay_success_spec_witness :
    toyLib.loadPgn "1. e4 e5" = some ["e4", "e5"] ∧
    ((handleImportPGN toyLib "1. e4 e5" (initState toyLib)).2 = false ∧
     (handleImportPGN toyLib "1. e4 e5" (initState toyLib)).1.moveHistory.length =
       (["e4", "e5"] : List String).length ∧
     (∀ i, i < (["e4", "e5"] : List String).length →
       (handleImportPGN toyLib "1. e4 e5" (initState toyLib)).1.moveHistory.get? i =
         some (replayFrom toyLib toyLib.startFen ((["e4", "e5"] : List String).take (i + 1)))) ∧
     (handleImportPGN toyLib "1. e4 e5" (initState toyLib)).1.fullMoveHistory = ["e4", "e5"] ∧
     (handleImportPGN toyLib "1. e4 e5" (initState toyLib)).1.currentMoveIndex =
       ((["e4", "e5"] : List String).length : Int) - 1 ∧
     (handleImportPGN toyLib "1. e4 e5" (initState toyLib)).1.isPgnMode = true ∧
     (handleImportPGN toyLib "1. e4 e5" (initState toyLib)).1.originalPgn = "1. e4 e5" ∧
     (handleImportPGN toyLib "1. e4 e5" (initState toyLib)).1.storagePgn = some "1. e4 e5" ∧
     (handleImportPGN toyLib "1. e4 e5" (initState toyLib)).1.storageMoveIndex =
       some (toString (((["e4", "e5"] : List String).length : Int) - 1))) :=
  ⟨by decide, importReplay_success_spec toyLib "1. e4 e5" ["e4", "e5"]
    (initState toyLib) (by decide)⟩

/-- Claim C3 counterexample: in a fresh live session, a legal move
followed by undo leaves `fullMoveHistory` holding the undone move — it is
not restored to its prior (empty) value, so the round trip does not
restore all three components. -/
theorem undo_not_restore_sanHistory_cex :
    (makeMove toyEnv (MoveReq.mk "e2" "e4" none) (initState toyLib)).2 = true ∧
    (handleUndoMove toyLib
        (makeMove toyEnv (MoveReq.mk "e2" "e4" none) (initState toyLib)).1).fullMoveHistory =
      ["e4"] ∧
    (handleUndoMove toyLib
        (makeMove toyEnv (MoveReq.mk "e2" "e4" none) (initState toyLib)).1).fullMoveHistory ≠
      (initState toyLib).fullMoveHistory := by
  decide

/-- Claim C3 (amended): in live mode, for any move the rules library
accepts, `makeMove` followed by `handleUndoMove` restores the move log
and the cursor to their exact prior values; `fullMoveHistory`, however,
is replaced by the one-element SAN history of the move and is left there
by the undo. -/
theorem submitMove_undo_live_restores (env : Env) (move : MoveReq) (s : AppState)
    (newFen san : String)
    (hp : s.isPgnMode = false) (hc : s.chatMode = false)
    (he : s.playingAgainstEngine = false)
    (hmv : env.lib.moveFromTo s.game move.fromSq move.toSq
            (promoArg env.lib s.game move.fromSq move.toSq) = some (newFen, san)) :
    (makeMove env move s).2 = true ∧
    (handleUndoMove env.lib (makeMove env move s).1).moveHistory = s.moveHistory ∧
    (handleUndoMove env.lib (makeMove env move s).1).currentMoveIndex =
      s.currentMoveIndex ∧
    (handleUndoMove env.lib (makeMove env move s).1).fullMoveHistory = [san] := by
  unfold makeMove handleUndoMove
  rw [hmv]
  simp [hp, hc, he, List.dropLast_concat]

/-- Claim C3 witness: the concrete move e2–e4 from the fresh live state. -/
theorem submitMove_undo_live_restores_witness :
    (initState toyLib).isPgnMode = false ∧ (initState toyLib).chatMode = false ∧
    (initState toyLib).playingAgainstEngine = false ∧
    toyLib.moveFromTo (initState toyLib).game "e2" "e4"
      (promoArg toyLib (initState toyLib).game "e2" "e4") = some ("fenA", "e4") ∧
    ((makeMove toyEnv (MoveReq.mk "e2" "e4" none) (initState toyLib)).2 = true ∧
     (handleUndoMove toyLib
        (makeMove toyEnv (MoveReq.mk "e2" "e4" none) (initState toyLib)).1).moveHistory =
       (initState toyLib).moveHistory ∧
     (handleUndoMove toyLib
        (makeMove toyEnv (MoveReq.mk "e2" "e4" none) (initState toyLib)).1).currentMoveIndex =
       (initState toyLib).currentMoveIndex ∧
     (handleUndoMove toyLib
        (makeMove toyEnv (MoveReq.mk "e2" "e4" none) (initState toyLib)).1).fullMoveHistory =
       ["e4"]) :=
  ⟨rfl, rfl, rfl, by decide,
    submitMove_undo_live_restores toyEnv (MoveReq.mk "e2" "e4" none)
      (initState toyLib) "fenA" "e4" rfl rfl rfl (by decide)⟩

/-- Claim C9 counterexample: on a pawn move to the last rank with a
supplied promotion piece ('n'), the code still passes 'q' to the rules
library — the supplied piece is discarded, and the call behaves exactly
as if 'q' had been requested — so auto-queening is not limited to the
case where no promotion piece was supplied. -/
theorem supplied_promotion_ignored_cex :
    promoArg toyLib "promofen" "a7" "a8" = some 'q' ∧
    (MoveReq.mk "a7" "a8" (some 'n')).promotion ≠ none ∧
    makeMove toyEnv (MoveReq.mk "a7" "a8" (some 'n')) promoToyState =
      makeMove toyEnv (MoveReq.mk "a7" "a8" (some 'q')) promoToyState := by
  decide

/-- Claim C9 (amended): `makeMove` never reads the supplied promotion
field (requests differing only there behave identically); the promotion
argument it hands the rules library is 'q' exactly when the moved piece
is a pawn headed for the last rank of its color, and is absent for every
other move. -/
theorem promotion_argument_spec (env : Env) (s : AppState)
    (fromSq toSq : String) (p q : Option Char) :
    makeMove env (MoveReq.mk fromSq toSq p) s =
      makeMove env (MoveReq.mk fromSq toSq q) s ∧
    (promoArg env.lib s.game fromSq toSq = some 'q' ∨
     promoArg env.lib s.game fromSq toSq = none) ∧
    (promoArg env.lib s.game fromSq toSq = some 'q' ↔
      ∃ piece, env.lib.pieceAt s.game fromSq = some piece ∧ piece.type = 'p' ∧
        ((piece.color = 'w' ∧ toSq.data.get? 1 = some '8') ∨
         (piece.color = 'b' ∧ toSq.data.get? 1 = some '1'))) := by
  refine ⟨rfl, ?_, ?_⟩
  · unfold promoArg
    cases env.lib.pieceAt s.game fromSq with
    | none => exact Or.inr rfl
    | some piece =>
      by_cases hcond : piece.type = 'p' ∧
          ((piece.color = 'w' ∧ toSq.data.get? 1 = some '8') ∨
           (piece.color = 'b' ∧ toSq.data.get? 1 = some '1'))
      · exact Or.inl (if_pos hcond)
      · exact Or.inr (if_neg hcond)
  · unfold promoArg
    cases hpc : env.lib.pieceAt s.game fromSq with
    | none =>
      refine iff_of_false (by simp) ?_
      rintro ⟨piece2, hpc2, -, -⟩
      exact Option.noConfusion hpc2
    | some piece =>
      dsimp only
      by_cases hcond : piece.type = 'p' ∧
          ((piece.color = 'w' ∧ toSq.data.get? 1 = some '8') ∨
           (piece.color = 'b' ∧ toSq.data.get? 1 = some '1'))
      · rw [if_pos hcond]
        exact iff_of_true rfl ⟨piece, rfl, hcond.1, hcond.2⟩
      · rw [if_neg hcond]
        refine iff_of_false (by simp) ?_
        rintro ⟨piece2, hpc2, h1, h2⟩
        injection hpc2 with hpe
        exact hcond ⟨hpe ▸ h1, hpe ▸ h2⟩

/-- Claim C8 counterexample: restoring a one-ply stored game with a stale
persisted cursor entry of "5" sets the cursor to 5, beyond the valid
range [−1, 0] — the persisted value is not clamped. -/
theorem restore_cursor_not_clamped_cex :
    (restoreFromStorage toyLib staleStorageState).currentMoveIndex = 5 ∧
    (restoreFromStorage toyLib staleStorageState).moveHistory.length = 1 ∧
    ¬((restoreFromStorage toyLib staleStorageState).currentMoveIndex ≤
      ((restoreFromStorage toyLib staleStorageState).moveHistory.length : Int) - 1) := by
  decide

/-- Claim C8 (amended): for every stored PGN that parses, the mount-time
restore sets the cursor to the integer parsed from the persisted entry,
used as-is without clamping to the move-log range; a missing entry
defaults the cursor to −1; the session enters PGN-replay mode with the
parsed SAN history. -/
theorem restore_cursor_unclamped (lib : ChessLib) (s : AppState)
    (savedPgn : String) (hist : List String)
    (hp : s.storagePgn = some savedPgn) (hl : lib.loadPgn savedPgn = some hist) :
    (s.storageMoveIndex = none →
      (restoreFromStorage lib s).currentMoveIndex = -1) ∧
    (∀ str k, s.storageMoveIndex = some str → str.isEmpty = false →
      parseIntJs str = some k →
      (restoreFromStorage lib s).currentMoveIndex = k) ∧
    (restoreFromStorage lib s).isPgnMode = true ∧
    (restoreFromStorage lib s).fullMoveHistory = hist := by
  unfold restoreFromStorage
  simp only [hp, hl]
  refine ⟨?_, ?_, by trivial, by trivial⟩
  · intro hnone; simp [hnone]
  · intro str k hsome hne hparse
    simp [hsome, hne, hparse]

/-- Claim C8 witness: the concrete stale-storage state (stored cursor
"5"), together with a missing-entry variant. -/
theorem restore_cursor_unclamped_witness :
    staleStorageState.storagePgn = some "1. e4" ∧
    toyLib.loadPgn "1. e4" = some ["e4"] ∧
    ((staleStorageState.storageMoveIndex = none →
       (restoreFromStorage toyLib staleStorageState).currentMoveIndex = -1) ∧
     (∀ str k, staleStorageState.storageMoveIndex = some str → str.isEmpty = false →
       parseIntJs str = some k →
       (restoreFromStorage toyLib staleStorageState).currentMoveIndex = k) ∧
     (restoreFromStorage toyLib staleStorageState).isPgnMode = true ∧
     (restoreFromStorage toyLib staleStorageState).fullMoveHistory = ["e4"]) :=
  ⟨rfl, by decide,
    restore_cursor_unclamped toyLib staleStorageState "1. e4" ["e4"] rfl (by decide)⟩

/-- Claim C4 counterexample: with the unconfigured constructor-state
engine, `analyzePosition` issues no external calls at all — in
particular no cloud-evaluation and no opening lookup — and returns the
bare fallback record with no opening or evaluation text, even though the
evaluation service had data for the position; a configured engine on the
same position does issue all three calls. -/
theorem unconfigured_analyze_skips_lookups_cex :
    (analyzePosition engineInit toyEngineEnv "fenA").2 = [] ∧
    ExtCall.cloudLookup "fenA" 3 ∉ (analyzePosition engineInit toyEngineEnv "fenA").2 ∧
    ExtCall.openingLookup "fenA" [] ∉ (analyzePosition engineInit toyEngineEnv "fenA").2 ∧
    (analyzePosition engineInit toyEngineEnv "fenA").1.lichessEval = none ∧
    (analyzePosition engineInit toyEngineEnv "fenA").1.openingInfo = none ∧
    toyEngineEnv.lichessGet "fenA" 3 ≠ none ∧
    (analyzePosition (setApiKey engineInit "AIzaTestKey").1 toyEngineEnv "fenA").2 =
      [ExtCall.cloudLookup "fenA" 3, ExtCall.openingLookup "fenA" [],
       ExtCall.narrativeRequest] := by
  decide

/-- Claim C4 (amended): whenever the narrative client is unconfigured or
its key has an invalid format, `analyzePosition` short-circuits before
any lookup: it performs no external calls, discards nothing because
nothing was fetched, and returns the static placeholder record ("API Key
Required") without throwing. -/
theorem unconfigured_analyze_fallback (cfg : EngineCfg) (env : EngineEnv)
    (fen : String)
    (h : cfg.isInitialized = false ∨ validateApiKey cfg.apiKey = false) :
    analyzePosition cfg env fen = (fallbackAnalysis fen, []) := by
  unfold analyzePosition
  rcases h with h | h <;> simp [h]

/-- Claim C4 witness: the constructor-state engine on a concrete
position. -/
theorem unconfigured_analyze_fallback_witness :
    (engineInit.isInitialized = false ∨ validateApiKey engineInit.apiKey = false) ∧
    analyzePosition engineInit toyEngineEnv "fenA" = (fallbackAnalysis "fenA", []) :=
  ⟨Or.inl rfl, unconfigured_analyze_fallback engineInit toyEngineEnv "fenA" (Or.inl rfl)⟩

/-- The concrete engine-opponent run that breaks the cursor invariant:
select white (entering engine-opponent mode), then drop e2–e4; the human
move appends "fenA" and advances the cursor to 0, the automatic engine
reply appends "fenB" and sets the displayed position without touching the
cursor. -/
def engineDesyncRun : AppState :=
  step toyEnv (Op.drop "e2" "e4") (step toyEnv (Op.colorSelect PColor.white) (initState toyLib))

/-- Claim C1: evaluation at the failing input.  After the engine's
automatic reply the move log has two entries but the cursor is still 0
and the displayed position is entry 1, so the displayed position differs
from Move Log[cursor]; undoing from this state drives the cursor to −2,
outside [−1, len−1].  This refutes the stated reachable-state invariant
on the code as written. -/
theorem engineReply_breaks_cursor_invariant :
    engineDesyncRun.moveHistory = ["fenA", "fenB"] ∧
    engineDesyncRun.currentMoveIndex = 0 ∧
    engineDesyncRun.game = "fenB" ∧
    engineDesyncRun.moveHistory.getD 0 "" ≠ engineDesyncRun.game ∧
    (handleUndoMove toyLib engineDesyncRun).currentMoveIndex = -2 := by
  decide

/-! ### Mode-flag exclusion (claim C2) -/

/-- How many of the three mode flags are raised. -/
def modeFlagCount (s : AppState) : Nat :=
  (if s.playingAgainstEngine then 1 else 0) +
  (if s.chatMode then 1 else 0) +
  (if s.isPgnMode then 1 else 0)

/-- The preconditions under which the interface reaches each handler:
color selection only from the play-vs-engine flow (chat and replay ruled
out), the chat toggle only outside replay, and PGN importing only outside
chat and engine modes — that last guard is one the UI does NOT enforce,
and it is needed below because the importing handler clears no flags. -/
def opGuard : Op → AppState → Bool
  | Op.colorSelect _, s => !s.chatMode && !s.isPgnMode
  | Op.chatToggle, s => !s.isPgnMode
  | Op.importPGN _, s => !s.chatMode && !s.playingAgainstEngine
  | _, _ => true

/-- A run in which every operation fires only in states satisfying its
guard. -/
def guardedRun (env : Env) : AppState → List Op → Bool
  | _, [] => true
  | s, op :: rest => opGuard op s && guardedRun env (step env op s) rest

/-- Two states with the same three mode flags have the same flag count. -/
theorem modeFlagCount_ext {t u : AppState}
    (h1 : t.playingAgainstEngine = u.playingAgainstEngine)
    (h2 : t.chatMode = u.chatMode) (h3 : t.isPgnMode = u.isPgnMode) :
    modeFlagCount t = modeFlagCount u := by
  unfold modeFlagCount
  rw [h1, h2, h3]

/-- `makeEngineMove` never touches a mode flag. -/
theorem makeEngineMove_modeFlags (env : Env) (g : String) (s : AppState) :
    (makeEngineMove env g s).playingAgainstEngine = s.playingAgainstEngine ∧
    (makeEngineMove env g s).chatMode = s.chatMode ∧
    (makeEngineMove env g s).isPgnMode = s.isPgnMode := by
  unfold makeEngineMove
  repeat' split
  all_goals exact ⟨rfl, rfl, rfl⟩

/-- `makeEngineMove` preserves the mode-flag count. -/
theorem makeEngineMove_modeFlagCount (env : Env) (g : String) (s : AppState) :
    modeFlagCount (makeEngineMove env g s) = modeFlagCount s :=
  modeFlagCount_ext (makeEngineMove_modeFlags env g s).1
    (makeEngineMove_modeFlags env g s).2.1 (makeEngineMove_modeFlags env g s).2.2

/-- `makeMove` never touches a mode flag. -/
theorem makeMove_modeFlags (env : Env) (move : MoveReq) (s : AppState) :
    (makeMove env move s).1.playingAgainstEngine = s.playingAgainstEngine ∧
    (makeMove env move s).1.chatMode = s.chatMode ∧
    (makeMove env move s).1.isPgnMode = s.isPgnMode := by
  unfold makeMove
  dsimp only
  repeat' split
  all_goals first
    | exact ⟨rfl, rfl, rfl⟩
    | exact makeEngineMove_modeFlags env _ _

/-- `makeMove` preserves the mode-flag count. -/
theorem makeMove_modeFlagCount (env : Env) (move : MoveReq) (s : AppState) :
    modeFlagCount (makeMove env move s).1 = modeFlagCount s :=
  modeFlagCount_ext (makeMove_modeFlags env move s).1
    (makeMove_modeFlags env move s).2.1 (makeMove_modeFlags env move s).2.2

/-- `onDrop` preserves the mode-flag count. -/
theorem onDrop_modeFlagCount (env : Env) (a b : String) (s : AppState) :
    modeFlagCount (onDrop env a b s).1 = modeFlagCount s := by
  unfold onDrop
  repeat' split
  all_goals first
    | rfl
    | exact makeMove_modeFlagCount env _ _

/-- `handleUndoMove` preserves the mode-flag count. -/
theorem handleUndoMove_modeFlagCount (lib : ChessLib) (s : AppState) :
    modeFlagCount (handleUndoMove lib s) = modeFlagCount s := by
  unfold handleUndoMove
  dsimp only
  repeat' split
  all_goals rfl

/-- `navigateMove` preserves the mode-flag count. -/
theorem navigateMove_modeFlagCount (lib : ChessLib) (i : Int) (s : AppState) :
    modeFlagCount (navigateMove lib i s) = modeFlagCount s := by
  unfold navigateMove
  dsimp only
  repeat' split
  all_goals rfl

/-- Under its guard, every single operation keeps at most one mode flag
raised. -/
theorem step_modeExclusion (env : Env) (op : Op) (s : AppState)
    (hg : opGuard op s = true) (h : modeFlagCount s ≤ 1) :
    modeFlagCount (step env op s) ≤ 1 := by
  cases op with
  | newGame => simp [step, handleNewGame, modeFlagCount]
  | stopPgn => simp [step, handleStopPgnAnalysis, handleNewGame, modeFlagCount]
  | chatToggle =>
    have hpgn : s.isPgnMode = false := by
      simpa [opGuard, Bool.not_eq_true'] using hg
    cases hc : s.chatMode <;>
      simp [step, handleChatMode, modeFlagCount, hpgn, hc]
  | colorSelect c =>
    simp only [opGuard, Bool.and_eq_true, Bool.not_eq_true'] at hg
    obtain ⟨hchat, hpgn⟩ := hg
    show modeFlagCount (handleColorSelect env c s) ≤ 1
    unfold handleColorSelect
    dsimp only
    split
    · rw [makeEngineMove_modeFlagCount]
      simp [modeFlagCount, hchat, hpgn]
    · simp [modeFlagCount, hchat, hpgn]
  | importPGN t =>
    simp only [opGuard, Bool.and_eq_true, Bool.not_eq_true'] at hg
    obtain ⟨hchat, heng⟩ := hg
    show modeFlagCount (handleImportPGN env.lib t s).1 ≤ 1
    unfold handleImportPGN
    cases henv : env.lib.loadPgn t with
    | none => simpa using h
    | some hist => simp [modeFlagCount, hchat, heng]
  | move m =>
    show modeFlagCount (makeMove env m s).1 ≤ 1
    rw [makeMove_modeFlagCount]
    exact h
  | drop a b =>
    show modeFlagCount (onDrop env a b s).1 ≤ 1
    rw [onDrop_modeFlagCount]
    exact h
  | undo =>
    show modeFlagCount (handleUndoMove env.lib s) ≤ 1
    rw [handleUndoMove_modeFlagCount]
    exact h
  | navigate i =>
    show modeFlagCount (navigateMove env.lib i s) ≤ 1
    rw [navigateMove_modeFlagCount]
    exact h
  | analyze =>
    show modeFlagCount (handleAnalyze env s) ≤ 1
    rw [modeFlagCount_ext (t := handleAnalyze env s) (u := s) rfl rfl rfl]
    exact h
  | flipBoard =>
    show modeFlagCount (handleFlipBoard s) ≤ 1
    rw [modeFlagCount_ext (t := handleFlipBoard s) (u := s) rfl rfl rfl]
    exact h

/-- Claim C2 counterexample: toggling chat mode and then importing a
valid PGN — both steps available through the interface, since the import
control is never disabled — leaves `chatMode` and `isPgnMode` raised
simultaneously, violating mutual exclusion. -/
theorem chat_plus_pgn_modes_cex :
    (execList toyEnv [Op.chatToggle, Op.importPGN "1. e4"] (initState toyLib)).chatMode =
      true ∧
    (execList toyEnv [Op.chatToggle, Op.importPGN "1. e4"] (initState toyLib)).isPgnMode =
      true ∧
    ¬(modeFlagCount (execList toyEnv [Op.chatToggle, Op.importPGN "1. e4"]
        (initState toyLib)) ≤ 1) := by
  decide

/-- Claim C2 (amended): at most one of the three mode flags is raised
after any sequence of operations in which color selection fires only
with chat and replay off, the chat toggle fires only with replay off,
and — the condition the code itself does not enforce — import fires only
with chat and engine modes off.  `handleImportPGN` clears no other flag,
so without that last guard `PgnReplay` can coexist with either other
mode. -/
theorem modeExclusion_guarded (env : Env) (ops : List Op) (s : AppState)
    (h : modeFlagCount s ≤ 1) (hg : guardedRun env s ops = true) :
    modeFlagCount (execList env ops s) ≤ 1 := by
  induction ops generalizing s with
  | nil => simpa [execList] using h
  | cons op rest ih =>
    rw [guardedRun, Bool.and_eq_true] at hg
    have h1 := step_modeExclusion env op s hg.1 h
    simpa [execList, List.foldl_cons] using ih (step env op s) h1 hg.2

/-- Claim C2 witness: a concrete guarded run (enter chat, new game,
play the engine as white, move, undo). -/
theorem modeExclusion_guarded_witness :
    modeFlagCount (initState toyLib) ≤ 1 ∧
    guardedRun toyEnv (initState toyLib)
      [Op.chatToggle, Op.newGame, Op.colorSelect PColor.white,
       Op.drop "e2" "e4", Op.undo] = true ∧
    modeFlagCount (execList toyEnv
      [Op.chatToggle, Op.newGame, Op.colorSelect PColor.white,
       Op.drop "e2" "e4", Op.undo] (initState toyLib)) ≤ 1 :=
  ⟨by decide, by decide,
    modeExclusion_guarded toyEnv
      [Op.chatToggle, Op.newGame, Op.colorSelect PColor.white,
       Op.drop "e2" "e4", Op.undo] (initState toyLib) (by decide) (by decide)⟩
